import Mathlib

/-!
Verification of the devbox repository provisioner (`devbox/unbox.py`) and of
the pre-commit hook runner interface (`devbox/hook.py`, known through its
spec and tests).  The Python code is shallowly embedded: the filesystem and
subprocess layer is an explicit state plus an oracle for process exit codes,
and every external action is recorded in an effect trace.
-/

namespace Devbox

/-- One character of the `[A-Za-z0-9_\-]+` word pattern used by
`repo_name_from_url`. -/
def wordChar (c : Char) : Bool :=
  c.isAlphanum || c = '_' || c = '-'

/-- Emit the (reversed) word run being accumulated, if any. -/
def flushWord (cur : List Char) : List (List Char) :=
  if cur.isEmpty then [] else [cur.reverse]

/-- Accumulator pass underlying `splitWords`; `cur` is the current word run
in reverse. -/
def splitWordsAux : List Char → List Char → List (List Char)
  | [], cur => flushWord cur
  | c :: cs, cur =>
    if wordChar c then splitWordsAux cs (c :: cur)
    else flushWord cur ++ splitWordsAux cs []

/-- `re.findall` for the pattern `[A-Za-z0-9_\-]+`: the list of maximal runs
of word characters, in order. -/
def splitWords (l : List Char) : List (List Char) :=
  splitWordsAux l []

/-- `repo_name_from_url`: last word of the URL, with a final word `git`
dropped first.  `none` models the `IndexError` Python raises when the list
of words is empty (or becomes empty after the pop). -/
def repoNameFromUrl (url : String) : Option String :=
  match (splitWords url.data).reverse with
  | [] => none
  | w :: ws =>
    if w = "git".data then ws.head?.map String.mk
    else some (String.mk w)

/-- Split a character list on a separator character; like Python
`str.split(sep)`, adjacent separators yield empty segments. -/
def splitOnCharAux (sep : Char) : List Char → List Char → List (List Char)
  | [], cur => [cur.reverse]
  | c :: cs, cur =>
    if c = sep then cur.reverse :: splitOnCharAux sep cs []
    else splitOnCharAux sep cs (c :: cur)

/-- Split on a separator character. -/
def splitOnChar (sep : Char) (l : List Char) : List (List Char) :=
  splitOnCharAux sep l []

/-- The last `/`-separated segment of a URL.  This follows the words of the
spec ("the last path segment of the URL"); it is compared against
`repoNameFromUrl`, which is translated from the source. -/
def lastPathSegment (url : String) : String :=
  String.mk (((splitOnChar '/' url.data).getLast?).getD [])

/-- POSIX-mode `shlex.split` (the `shlex` standard library, an external
collaborator of `run_commands` and of the hook runner): whitespace-separated
words, single quotes quote literally, double quotes let a backslash escape
only `\x22` and backslash, an unquoted backslash escapes the next
character. -/
def shlexAux : List Char → Option Char → List Char → List (List Char) →
    Bool → List (List Char)
  | [], _, cur, acc, inTok =>
    if inTok then (cur.reverse :: acc).reverse else acc.reverse
  | c :: rest, some q, cur, acc, _ =>
    if c = q then shlexAux rest none cur acc true
    else if q = '"' ∧ c = '\\' then
      match rest with
      | d :: rest2 =>
        if d = '"' ∨ d = '\\' then shlexAux rest2 (some q) (d :: cur) acc true
        else shlexAux rest2 (some q) (d :: c :: cur) acc true
      | [] => ((c :: cur).reverse :: acc).reverse
    else shlexAux rest (some q) (c :: cur) acc true
  | c :: rest, none, cur, acc, inTok =>
    if c = ' ' ∨ c = '\t' ∨ c = '\n' ∨ c = '\r' then
      if inTok then shlexAux rest none [] (cur.reverse :: acc) false
      else shlexAux rest none [] acc false
    else if c = '\'' ∨ c = '"' then shlexAux rest (some c) cur acc true
    else if c = '\\' then
      match rest with
      | d :: rest2 => shlexAux rest2 none (d :: cur) acc true
      | [] => (cur.reverse :: acc).reverse
    else shlexAux rest none (c :: cur) acc true

/-- `shlex.split`. -/
def shlexSplit (s : String) : List String :=
  (shlexAux s.data none [] [] false).map String.mk

/-- Modelled from the spec: the basename glob matching of the absent
`devbox/hook.py` ("shell glob semantics — `*` and `?` wildcards, no
recursive directory matching required"): `*` matches any, possibly empty,
character sequence and `?` any single character. -/
def globMatch : List Char → List Char → Bool
  | [], s => s.isEmpty
  | c :: ps, s =>
    if c = '*' then s.tails.any fun t => globMatch ps t
    else
      match s with
      | [] => false
      | ch :: cs => (c == '?' || c == ch) && globMatch ps cs

/-- `os.path.basename`: the part after the last `/`. -/
def basename (f : String) : String :=
  String.mk (((splitOnChar '/' f.data).getLast?).getD [])

/-- Tail test for the regular expression `^(http|https|ftp)://.+$` applied
with `re.match`: after the scheme there is at least one character, `.` does
not cross a newline, and `$` also matches just before one trailing
newline. -/
def urlTailOk (r : List Char) : Bool :=
  let r2 := if r.getLast? = some '\n' then r.dropLast else r
  !r2.isEmpty && !(r2.contains '\n')

/-- `URL_SCRIPT.match(command[0])`: the first token is a remote script URL. -/
def isUrlScript (s : String) : Bool :=
  if "http://".data.isPrefixOf s.data then urlTailOk (s.data.drop 7)
  else if "https://".data.isPrefixOf s.data then urlTailOk (s.data.drop 8)
  else if "ftp://".data.isPrefixOf s.data then urlTailOk (s.data.drop 6)
  else false

/-- `os.path.join` on two components (POSIX rules: an absolute second
component discards the first). -/
def pjoin (a b : String) : String :=
  if "/".data.isPrefixOf b.data then b
  else if a = "" then b
  else if a.data.getLast? = some '/' then a ++ b
  else a ++ "/" ++ b

/-- Normalisation step of `os.path.abspath`: drop `.` and empty components,
let `..` pop the previous component. -/
def normParts (acc : List (List Char)) : List (List Char) → List (List Char)
  | [] => acc.reverse
  | p :: ps =>
    if p = [] ∨ p = ['.'] then normParts acc ps
    else if p = ['.', '.'] then normParts (acc.drop 1) ps
    else normParts (p :: acc) ps

/-- Normalise an absolute path. -/
def normAbs (p : String) : String :=
  String.mk ('/' :: List.intercalate ['/'] (normParts [] (splitOnChar '/' p.data)))

/-- The `env` entry of a `.devbox.conf` file: virtualenv path and extra
creation arguments. -/
structure EnvCfg where
  path : String
  args : List String
deriving DecidableEq

/-- A setup or hook command: a list of argument tokens, or a single string
that is tokenized with `shlex.split` before execution. -/
inductive Cmd where
  | tokens (a : List String)
  | str (s : String)
deriving DecidableEq

/-- `shlex.split` on string commands, identity on token lists. -/
def normalizeCmd : Cmd → List String
  | .tokens a => a
  | .str s => shlexSplit s

/-- A `.devbox.conf` record with the keys `unbox` reads; each `conf.get`
default of the source is a field default here, `env` and `parent` are
optional. -/
structure Conf where
  dependencies : List String
  preSetup : List Cmd
  postSetup : List Cmd
  env : Option EnvCfg
  parent : Option String
deriving DecidableEq

/-- The empty configuration `load_conf` returns when no conf file exists. -/
def defaultConf : Conf :=
  { dependencies := [], preSetup := [], postSetup := [], env := none,
    parent := none }

/-- The fixed outside world: exit code of each spawned command line, the
local filename `urlretrieve` stores a URL under, whether
`distutils.spawn.find_executable` finds a binary, the invoking process's
`PATH` value, `sys.executable`, and the parsed `.devbox.conf` content of
each absolute directory (`load_conf`, with the empty default for
directories without a conf file). -/
structure World where
  exitCode : List String → Int
  fetch : String → String
  findExec : String → Bool
  envPATH : String
  pythonExe : String
  confs : String → Conf

/-- Mutable process state: current working directory plus the sets of
existing paths and of symlinks, all absolute. -/
structure St where
  cwd : String
  existing : List String
  links : List String
deriving DecidableEq

/-- `os.path.abspath` relative to the state's working directory. -/
def abspath (st : St) (p : String) : String :=
  if "/".data.isPrefixOf p.data then normAbs p
  else normAbs (st.cwd ++ "/" ++ p)

/-- `os.path.exists`. -/
def existsPath (st : St) (p : String) : Bool :=
  st.existing.contains (abspath st p)

/-- `os.path.islink`. -/
def islinkPath (st : St) (p : String) : Bool :=
  st.links.contains (abspath st p)

/-- Record that a path now exists. -/
def addPath (st : St) (p : String) : St :=
  { st with existing := abspath st p :: st.existing }

/-- Record that a path now exists and is a symlink (`os.symlink`). -/
def addPathLink (st : St) (p : String) : St :=
  { st with existing := abspath st p :: st.existing,
            links := abspath st p :: st.links }

/-- Remove a path (`shutil.rmtree`). -/
def removePath (st : St) (p : String) : St :=
  { st with existing := st.existing.erase (abspath st p),
            links := st.links.erase (abspath st p) }

/-- Observable external actions, in program order.  `chdir` records the
absolute working directory that results from an `os.chdir` call. -/
inductive Effect where
  | checkCall (cmd : List String) (env : Option (List (String × String)))
  | callCmd (cmd : List String) (env : Option (List (String × String)))
  | popen (cmd : List String)
  | chdir (path : String)
  | symlink (src dst : String)
  | rmtree (path : String)
  | urlretrieve (url : String)
  | chmod (path : String)
  | unlink (path : String)
deriving DecidableEq

/-- Errors that propagate as Python exceptions. -/
inductive Err where
  | commandFailed (cmd : List String)
  | indexError
  | keyError
  | osError (path : String)
  | fuelExhausted
deriving DecidableEq

/-- The `env` keyword argument `run_commands` builds when a venv is given:
a mapping with the single variable `PATH`, set to
`os.path.join(os.path.curdir, venv.path, 'bin') + os.pathsep +
os.environ['PATH']`. -/
def venvEnvMap (w : World) (venv : Option EnvCfg) :
    Option (List (String × String)) :=
  match venv with
  | none => none
  | some e => some [("PATH", pjoin (pjoin "." e.path) "bin" ++ ":" ++ w.envPATH)]

/-- One iteration of the `run_commands` loop: tokenize, build the optional
environment, fetch-and-substitute a remote script command, run it with
`subprocess.check_call` (raising on a non-zero exit), and unlink a fetched
script afterwards.  The unlink follows `check_call` with no `finally`, so a
failing command skips it. -/
def runOneCommand (w : World) (st : St) (c : Cmd) (venv : Option EnvCfg) :
    List Effect × St × Option Err :=
  let cmd := normalizeCmd c
  let kenv := venvEnvMap w venv
  match cmd with
  | [] => ([], st, some Err.indexError)
  | c0 :: rest =>
    if isUrlScript c0 then
      let p := w.fetch c0
      let cmd2 := p :: rest
      if w.exitCode cmd2 = 0 then
        ([Effect.urlretrieve c0, Effect.chmod p, Effect.checkCall cmd2 kenv,
          Effect.unlink p], st, none)
      else
        ([Effect.urlretrieve c0, Effect.chmod p, Effect.checkCall cmd2 kenv],
         st, some (Err.commandFailed cmd2))
    else
      if w.exitCode cmd = 0 then ([Effect.checkCall cmd kenv], st, none)
      else ([Effect.checkCall cmd kenv], st, some (Err.commandFailed cmd))

/-- `run_commands`: run the list in order; a raised `CalledProcessError`
aborts the remainder. -/
def runCommands (w : World) (st : St) (cmds : List Cmd)
    (venv : Option EnvCfg) : List Effect × St × Option Err :=
  match cmds with
  | [] => ([], st, none)
  | c :: cs =>
    let r := runOneCommand w st c venv
    match r.2.2 with
    | some e => (r.1, r.2.1, some e)
    | none =>
      let r2 := runCommands w r.2.1 cs venv
      (r.1 ++ r2.1, r2.2.1, r2.2.2)

/-- `setup_git_hooks`: if a `git_hooks` directory exists and `.git/hooks`
is not a symlink, remove `.git/hooks` recursively and symlink it to
`../git_hooks`.  `shutil.rmtree` raises `OSError` when the target is
missing. -/
def setupGitHooks (st : St) : List Effect × St × Option Err :=
  if existsPath st "git_hooks" && !islinkPath st ".git/hooks" then
    if existsPath st ".git/hooks" then
      ([Effect.rmtree ".git/hooks",
        Effect.symlink "../git_hooks" ".git/hooks"],
       addPathLink (removePath st ".git/hooks") ".git/hooks", none)
    else ([], st, some (Err.osError ".git/hooks"))
  else ([], st, none)

/-- `update_repo`: fast-forward pull and recursive submodule update, both
through `subprocess.call`, whose return value is discarded — a non-zero
exit never raises. -/
def updateRepo (st : St) : List Effect × St × Option Err :=
  ([Effect.callCmd ["git", "pull", "--ff-only"] none,
    Effect.callCmd ["git", "submodule", "update", "--init", "--recursive"]
      none], st, none)

/-- `create_virtualenv`.  In source order: a handed-down dependency venv is
symlinked when the local env path does not exist; else a declared `parent`
peer repository's venv is looked up one level up and symlinked when its env
path exists (`parent_conf['env']` raises `KeyError` when the peer conf has
no `env`); else the env path, still missing, is created with the virtualenv
binary when `find_executable` locates it, and otherwise with a virtualenv
release fetched from pypi.  A successful symlink or creation makes the env
path exist.  Returns the absolute env path. -/
def createVirtualenv (w : World) (st : St) (env : EnvCfg) (venvBin : String)
    (venv : Option String) (parent : Option String) :
    List Effect × St × Option Err × String :=
  let ret := abspath st env.path
  let step1 : List Effect × St :=
    match venv with
    | some v =>
      if !existsPath st env.path then
        ([Effect.symlink v env.path], addPathLink st env.path)
      else ([], st)
    | none => ([], st)
  let step2 : List Effect × St × Option Err :=
    match parent with
    | some p =>
      if !existsPath step1.2 env.path then
        let parentPath := pjoin ".." p
        if existsPath step1.2 parentPath then
          match (w.confs (abspath step1.2 parentPath)).env with
          | none => ([], step1.2, some Err.keyError)
          | some pe =>
            let v2 := pjoin parentPath pe.path
            if existsPath step1.2 v2 then
              ([Effect.symlink v2 env.path], addPathLink step1.2 env.path,
               none)
            else ([], step1.2, none)
        else ([], step1.2, none)
      else ([], step1.2, none)
    | none => ([], step1.2, none)
  match step2.2.2 with
  | some e => (step1.1 ++ step2.1, step2.2.1, some e, ret)
  | none =>
    let st2 := step2.2.1
    let step3 : List Effect × St × Option Err :=
      if !existsPath st2 env.path then
        if w.findExec venvBin then
          let cmd := [venvBin] ++ env.args ++ [env.path]
          if w.exitCode cmd = 0 then
            ([Effect.checkCall cmd none], addPath st2 env.path, none)
          else
            ([Effect.checkCall cmd none], st2,
             some (Err.commandFailed cmd))
        else
          let url := "https://pypi.python.org/packages/source/v/" ++
            "virtualenv/virtualenv-1.10.1.tar.gz"
          let p := w.fetch url
          let tarCmd := ["tar", "xzf", p]
          if w.exitCode tarCmd = 0 then
            let pyCmd := [w.pythonExe, "virtualenv-1.10.1/virtualenv.py"]
              ++ env.args ++ [env.path]
            if w.exitCode pyCmd = 0 then
              ([Effect.urlretrieve url, Effect.checkCall tarCmd none,
                Effect.checkCall pyCmd none, Effect.unlink p,
                Effect.rmtree "virtualenv-1.10.1"],
               addPath st2 env.path, none)
            else
              ([Effect.urlretrieve url, Effect.checkCall tarCmd none,
                Effect.checkCall pyCmd none], st2,
               some (Err.commandFailed pyCmd))
          else
            ([Effect.urlretrieve url, Effect.checkCall tarCmd none], st2,
             some (Err.commandFailed tarCmd))
      else ([], st2, none)
    (step1.1 ++ step2.1 ++ step3.1, step3.2.1, step3.2.2, ret)

/-- Destination resolution at the top of `unbox`: an existing local `repo`
path with no explicit destination is its own destination; otherwise an
absent or empty destination is derived from the URL.  `none` models the
`IndexError` of `repo_name_from_url` on a URL without word characters. -/
def resolveDest (st : St) (repo : String) (dest : Option String) :
    Option String :=
  if existsPath st repo && dest.isNone then some repo
  else
    match dest with
    | some d => if d = "" then repoNameFromUrl repo else some d
    | none => repoNameFromUrl repo

/-- The clone step of `unbox`: clone only when the destination does not
exist; `subprocess.check_call` makes a non-zero clone exit fatal.  A
successful clone creates the destination. -/
def clonePhase (w : World) (st : St) (repo d : String) :
    List Effect × St × Option Err :=
  if existsPath st d then ([], st, none)
  else
    let cmd := ["git", "clone", repo, d]
    if w.exitCode cmd = 0 then
      ([Effect.checkCall cmd none], addPath st d, none)
    else ([Effect.checkCall cmd none], st, some (Err.commandFailed cmd))

/-- Body of the first `with pushd(dest)` block of `unbox`: update the repo,
load the conf, run `pre_setup`, install git hooks, and create or link the
virtualenv when the conf declares one.  Returns the venv path handed to
dependency provisioning (unchanged when no `env` is declared or on
error). -/
def setupBody (w : World) (st : St) (conf : Conf) (venvBin : String)
    (venv : Option String) : List Effect × St × Option String × Option Err :=
  let r1 := updateRepo st
  let r2 := runCommands w r1.2.1 conf.preSetup none
  match r2.2.2 with
  | some e => (r1.1 ++ r2.1, r2.2.1, venv, some e)
  | none =>
    let r3 := setupGitHooks r2.2.1
    match r3.2.2 with
    | some e => (r1.1 ++ r2.1 ++ r3.1, r3.2.1, venv, some e)
    | none =>
      match conf.env with
      | none => (r1.1 ++ r2.1 ++ r3.1, r3.2.1, venv, none)
      | some ec =>
        let r4 := createVirtualenv w r3.2.1 ec venvBin venv conf.parent
        match r4.2.2.1 with
        | some e => (r1.1 ++ r2.1 ++ r3.1 ++ r4.1, r4.2.1, venv, some e)
        | none =>
          (r1.1 ++ r2.1 ++ r3.1 ++ r4.1, r4.2.1, some r4.2.2.2, none)

/-- The first `with pushd(dest)` block of `unbox`, including the `pushd`
enter/exit directory changes; the working directory is restored even when
the body raises (the context manager's `finally`).  Also returns the conf
loaded inside the destination. -/
def setupPhase (w : World) (st : St) (d : String) (venvBin : String)
    (venv : Option String) :
    List Effect × St × Conf × Option String × Option Err :=
  let saved := st.cwd
  let din := abspath st d
  let stIn : St := { st with cwd := din }
  let conf := w.confs din
  let r := setupBody w stIn conf venvBin venv
  (Effect.chdir din :: r.1 ++ [Effect.chdir saved],
   { r.2.1 with cwd := saved }, conf, r.2.2.1, r.2.2.2)

/-- The final `with pushd(dest)` block of `unbox`: run `post_setup` with
the conf's env on the path; the working directory is restored even on
error. -/
def postPhase (w : World) (st : St) (d : String) (conf : Conf) :
    List Effect × St × Option Err :=
  let saved := st.cwd
  let din := abspath st d
  let stIn : St := { st with cwd := din }
  let r := runCommands w stIn conf.postSetup conf.env
  (Effect.chdir din :: r.1 ++ [Effect.chdir saved],
   { r.2.1 with cwd := saved }, r.2.2)

/-- The dependency loop of `unbox`: provision each dependency in order; an
exception raised by a dependency propagates at once. -/
def runDepList (f : String → St → List Effect × St × Option Err) :
    List String → St → List Effect × St × Option Err
  | [], st => ([], st, none)
  | dep :: rest, st =>
    let r := f dep st
    match r.2.2 with
    | some e => (r.1, r.2.1, some e)
    | none =>
      let r2 := runDepList f rest r.2.1
      (r.1 ++ r2.1, r2.2.1, r2.2.2)

/-- `unbox`: resolve the destination, clone when missing, run the setup
block, recursively provision dependencies unless `noDeps`, then run
`post_setup`.  `fuel` bounds the recursion depth (an accidental dependency
cycle is an unbounded-recursion fault). -/
def unbox (w : World) (fuel : Nat) (st : St) (repo : String)
    (dest : Option String) (noDeps : Bool) (venvBin : String)
    (venv : Option String) : List Effect × St × Option Err :=
  match fuel with
  | 0 => ([], st, some Err.fuelExhausted)
  | Nat.succ n =>
    match resolveDest st repo dest with
    | none => ([], st, some Err.indexError)
    | some d =>
      let c := clonePhase w st repo d
      match c.2.2 with
      | some e => (c.1, c.2.1, some e)
      | none =>
        let s := setupPhase w c.2.1 d venvBin venv
        match s.2.2.2.2 with
        | some e => (c.1 ++ s.1, s.2.1, some e)
        | none =>
          let conf := s.2.2.1
          let depsRes :=
            if noDeps then ([], s.2.1, none)
            else
              runDepList
                (fun dep s2 => unbox w n s2 dep none noDeps venvBin
                  s.2.2.2.1)
                conf.dependencies s.2.1
          match depsRes.2.2 with
          | some e => (c.1 ++ s.1 ++ depsRes.1, depsRes.2.1, some e)
          | none =>
            let p := postPhase w depsRes.2.1 d conf
            (c.1 ++ s.1 ++ depsRes.1 ++ p.1, p.2.1, p.2.2)
termination_by structural fuel

/-- `PATH` override mapping of the hook runner. -/
def hookEnvMap (pathO : Option String) : Option (List (String × String)) :=
  pathO.map fun p => [("PATH", p)]

/-- Modelled from the spec: `devbox/hook.py` is not in the sources (only
its tests are), so the `hooks_all` loop of `run_checks` follows §4.2 of the
spec: each command is tokenized and run synchronously through
`subprocess.call` with the overridden `PATH`, its exit status is captured,
and a failure never stops the loop.  Returns the trace and whether any
command failed. -/
def runChecksAll (w : World) (pathO : Option String) :
    List Cmd → List Effect × Bool
  | [] => ([], false)
  | c :: cs =>
    let cmd := normalizeCmd c
    let r := runChecksAll w pathO cs
    (Effect.callCmd cmd (hookEnvMap pathO) :: r.1,
     (w.exitCode cmd != 0) || r.2)

/-- Modelled from the spec: one `hooks_modified` entry of `run_checks`
against the changed files — the command is spawned once per file whose
basename matches the glob pattern, with the filename appended as the final
argument after tokenization. -/
def runChecksModOne (w : World) (pat : String) (c : Cmd) :
    List String → List Effect × Bool
  | [] => ([], false)
  | f :: fs =>
    let r := runChecksModOne w pat c fs
    if globMatch pat.data (basename f).data then
      let cmd := normalizeCmd c ++ [f]
      (Effect.popen cmd :: r.1, (w.exitCode cmd != 0) || r.2)
    else r

/-- Modelled from the spec: the `hooks_modified` loop of `run_checks`, in
declaration order. -/
def runChecksMods (w : World) (files : List String) :
    List (String × Cmd) → List Effect × Bool
  | [] => ([], false)
  | (pat, c) :: rest =>
    let r1 := runChecksModOne w pat c files
    let r2 := runChecksMods w files rest
    (r1.1 ++ r2.1, r1.2 || r2.2)

/-- Modelled from the spec: `run_checks(allCommands, modifiedCommands,
changedFiles, pathOverride)` of the absent `devbox/hook.py` — run every
unconditional command, then every per-file pattern command, and return a
non-zero exit code exactly when some executed command returned non-zero. -/
def runChecks (w : World) (allCmds : List Cmd) (mods : List (String × Cmd))
    (files : List String) (pathO : Option String) : List Effect × Int :=
  let r1 := runChecksAll w pathO allCmds
  let r2 := runChecksMods w files mods
  (r1.1 ++ r2.1, if r1.2 || r2.2 then 1 else 0)

/-- Exit code of the process an effect spawned (0 for non-process
effects). -/
def effectExit (w : World) : Effect → Int
  | .checkCall cmd _ => w.exitCode cmd
  | .callCmd cmd _ => w.exitCode cmd
  | .popen cmd => w.exitCode cmd
  | _ => 0

/-- Is this effect an invocation of the clone tool? -/
def isCloneEff : Effect → Bool
  | .checkCall ("git" :: "clone" :: _) _ => true
  | _ => false

/-- Is this effect a file deletion? -/
def isUnlinkEff : Effect → Bool
  | .unlink _ => true
  | _ => false

/-- Is this effect a `subprocess.check_call`? -/
def isCheckCallEff : Effect → Bool
  | .checkCall _ _ => true
  | _ => false

/-- The environment mapping a `check_call` effect passed to its child. -/
def checkCallEnv : Effect → Option (List (String × String))
  | .checkCall _ env => env
  | _ => none

/-- A separator that is not a word character splits the accumulator pass of
the word parser. -/
theorem splitWordsAux_append_sep (sep : Char) (h : wordChar sep = false) :
    ∀ (xs cur ys : List Char),
      splitWordsAux (xs ++ sep :: ys) cur
        = splitWordsAux xs cur ++ splitWordsAux ys [] := by
  intro xs
  induction xs with
  | nil =>
    intro cur ys
    simp [splitWordsAux, h]
  | cons c cs ih =>
    intro cur ys
    by_cases hc : wordChar c
    · simp [splitWordsAux, hc, ih]
    · simp [splitWordsAux, hc, ih]

/-- A separator that is not a word character splits the word list. -/
theorem splitWords_append_sep (sep : Char) (h : wordChar sep = false)
    (xs ys : List Char) :
    splitWords (xs ++ sep :: ys) = splitWords xs ++ splitWords ys :=
  splitWordsAux_append_sep sep h xs [] ys

/-- The word parser on a pure run of word characters accumulates it
whole. -/
theorem splitWordsAux_word :
    ∀ (name cur : List Char), name.all wordChar = true →
      splitWordsAux name cur = flushWord (name.reverse ++ cur) := by
  intro name
  induction name with
  | nil => intro cur _; simp [splitWordsAux]
  | cons c cs ih =>
    intro cur hall
    have hc : wordChar c = true := List.all_eq_true.mp hall c (by simp)
    have hcs : cs.all wordChar = true :=
      List.all_eq_true.mpr fun x hx => List.all_eq_true.mp hall x (by simp [hx])
    rw [splitWordsAux, if_pos hc, ih (c :: cur) hcs]
    simp

/-- A nonempty pure run of word characters is a single word. -/
theorem splitWords_word (w : List Char) (hne : w ≠ [])
    (hall : w.all wordChar = true) : splitWords w = [w] := by
  unfold splitWords
  rw [splitWordsAux_word w [] hall, List.append_nil]
  unfold flushWord
  match w with
  | [] => exact absurd rfl hne
  | c :: cs => simp

/-- A benign world: every command exits 0, fetched scripts land in
`/tmp/script`, the virtualenv binary is found, and no directory has a conf
file. -/
def w2 : World :=
  { exitCode := fun _ => 0, fetch := fun _ => "/tmp/script",
    findExec := fun _ => true, envPATH := "/usr/bin",
    pythonExe := "/usr/bin/python3", confs := fun _ => defaultConf }

/-- A world in which every spawned command exits 1. -/
def wFail : World :=
  { w2 with exitCode := fun _ => 1 }

/-- A fresh working directory with an empty filesystem. -/
def st0 : St := { cwd := "/home/user", existing := [], links := [] }

/-- C4, counterexample.  The URL `http://host/git` does not end in `.git`,
its last path segment is `git`, yet `repo_name_from_url` returns `host`:
the word-run parser pops a final word `git` even when it is not a `.git`
suffix. -/
theorem claim_C4_counterexample :
    ".git".data.isSuffixOf "http://host/git".data = false
    ∧ lastPathSegment "http://host/git" = "git"
    ∧ repoNameFromUrl "http://host/git" = some "host"
    ∧ ("host" : String) ≠ "git" := by
  refine ⟨by decide, by decide, by decide, by decide⟩

/-- C4 (amended): the derived name is the last maximal `[A-Za-z0-9_-]` run
of the URL, after dropping one final run equal to `git`.  Whenever the URL
ends in `/name.git` with `name` a nonempty word run, the result is `name`;
whenever it ends in `/name` with `name` a nonempty word run different from
`git`, the result is `name`. -/
theorem claim_C4_theorem (base name : List Char) (h1 : name ≠ [])
    (h2 : name.all wordChar = true) :
    repoNameFromUrl
        (String.mk (base ++ '/' :: (name ++ '.' :: "git".data)))
      = some (String.mk name)
    ∧ (String.mk name ≠ "git" →
        repoNameFromUrl (String.mk (base ++ '/' :: name))
          = some (String.mk name)) := by
  have hslash : wordChar '/' = false := by decide
  have hdot : wordChar '.' = false := by decide
  have hgit : splitWords "git".data = ["git".data] := by decide
  constructor
  · have hw : splitWords (base ++ '/' :: (name ++ '.' :: "git".data))
        = splitWords base ++ (splitWords name ++ splitWords "git".data) := by
      rw [splitWords_append_sep '/' hslash base,
        splitWords_append_sep '.' hdot name]
    unfold repoNameFromUrl
    rw [show (String.mk (base ++ '/' :: (name ++ '.' :: "git".data))).data
        = base ++ '/' :: (name ++ '.' :: "git".data) from rfl, hw,
      splitWords_word name h1 h2, hgit]
    simp
  · intro hne
    have hw : splitWords (base ++ '/' :: name)
        = splitWords base ++ splitWords name := by
      rw [splitWords_append_sep '/' hslash base]
    unfold repoNameFromUrl
    rw [show (String.mk (base ++ '/' :: name)).data
        = base ++ '/' :: name from rfl, hw, splitWords_word name h1 h2]
    have hne2 : name ≠ "git".data := by
      intro hx
      exact hne (by rw [hx])
    simp [hne2]

/-- C4, witness for the amended statement. -/
theorem claim_C4_witness :
    repoNameFromUrl "http://host/repo.git" = some "repo"
    ∧ repoNameFromUrl "http://host/repo" = some "repo" := by
  have h := claim_C4_theorem "http://host".data "repo".data
    (by decide) (by decide)
  exact ⟨h.1, h.2 (by decide)⟩

/-- C3, counterexample.  A remote script command whose execution exits
non-zero: `run_commands` raises out of `check_call` before reaching the
`os.unlink`, so the fetched temporary file is never deleted — against the
claim that it is removed regardless of the outcome. -/
theorem claim_C3_counterexample :
    runCommands wFail st0 [Cmd.tokens ["http://h/s.py", "arg"]] none
      = ([Effect.urlretrieve "http://h/s.py", Effect.chmod "/tmp/script",
          Effect.checkCall ["/tmp/script", "arg"] none], st0,
         some (Err.commandFailed ["/tmp/script", "arg"]))
    ∧ (runCommands wFail st0 [Cmd.tokens ["http://h/s.py", "arg"]]
        none).1.countP isUnlinkEff = 0 := by
  refine ⟨by decide, by decide⟩

/-- C3 (amended): a remote script command is fetched, marked executable and
invoked with the local path substituted; the temporary file is deleted
after execution only when the script exits zero — on a non-zero exit the
failure propagates before the deletion, and the temporary file is not
removed. -/
theorem claim_C3_theorem (w : World) (st : St) (u : String)
    (args : List String) (venv : Option EnvCfg)
    (hu : isUrlScript u = true) :
    (w.exitCode (w.fetch u :: args) = 0 →
      runCommands w st [Cmd.tokens (u :: args)] venv
        = ([Effect.urlretrieve u, Effect.chmod (w.fetch u),
            Effect.checkCall (w.fetch u :: args) (venvEnvMap w venv),
            Effect.unlink (w.fetch u)], st, none))
    ∧ (w.exitCode (w.fetch u :: args) ≠ 0 →
      runCommands w st [Cmd.tokens (u :: args)] venv
        = ([Effect.urlretrieve u, Effect.chmod (w.fetch u),
            Effect.checkCall (w.fetch u :: args) (venvEnvMap w venv)], st,
           some (Err.commandFailed (w.fetch u :: args)))
      ∧ (runCommands w st [Cmd.tokens (u :: args)] venv).1.countP
          isUnlinkEff = 0) := by
  constructor
  · intro hz
    simp [runCommands, runOneCommand, normalizeCmd, hu, hz]
  · intro hnz
    have hbody : runCommands w st [Cmd.tokens (u :: args)] venv
        = ([Effect.urlretrieve u, Effect.chmod (w.fetch u),
            Effect.checkCall (w.fetch u :: args) (venvEnvMap w venv)], st,
           some (Err.commandFailed (w.fetch u :: args))) := by
      simp [runCommands, runOneCommand, normalizeCmd, hu, hnz]
    refine ⟨hbody, ?_⟩
    rw [hbody]
    simp [isUnlinkEff, List.countP_cons]

/-- C3, witness for the amended statement: the zero-exit branch in the
benign world and the non-zero branch in the all-failing world. -/
theorem claim_C3_witness :
    runCommands w2 st0 [Cmd.tokens ["http://h/s.py", "arg"]] none
      = ([Effect.urlretrieve "http://h/s.py", Effect.chmod "/tmp/script",
          Effect.checkCall ["/tmp/script", "arg"] none,
          Effect.unlink "/tmp/script"], st0, none)
    ∧ (runCommands wFail st0 [Cmd.tokens ["http://h/s.py", "arg"]] none).1.countP
        isUnlinkEff = 0 := by
  refine ⟨(claim_C3_theorem w2 st0 "http://h/s.py" ["arg"] none
    (by decide)).1 (by decide),
    ((claim_C3_theorem wFail st0 "http://h/s.py" ["arg"] none
      (by decide)).2 (by decide)).2⟩

/-- C5: with `env = (venv, [])`, no handed-down venv, no parent, and no
existing path, `create_virtualenv` invokes the creation tool with exactly
`[tool, 'venv']`; with a handed-down venv and no existing path it makes a
symlink instead and never invokes the creation tool; when the env path
already exists it does nothing at all. -/
theorem claim_C5_theorem :
    (∀ (w : World) (st : St) (vb : String),
      existsPath st "venv" = false → w.findExec vb = true →
      (createVirtualenv w st ⟨"venv", []⟩ vb none none).1
        = [Effect.checkCall [vb, "venv"] none])
    ∧ (∀ (w : World) (st : St) (env : EnvCfg) (vb v : String),
      existsPath st env.path = false →
      createVirtualenv w st env vb (some v) none
        = ([Effect.symlink v env.path], addPathLink st env.path, none,
           abspath st env.path))
    ∧ (∀ (w : World) (st : St) (env : EnvCfg) (vb : String)
        (venv : Option String) (parent : Option String),
      existsPath st env.path = true →
      createVirtualenv w st env vb venv parent
        = ([], st, none, abspath st env.path)) := by
  refine ⟨?_, ?_, ?_⟩
  · intro w st vb hex hfind
    by_cases hz : w.exitCode [vb, "venv"] = 0
    · simp [createVirtualenv, hex, hfind, hz]
    · simp [createVirtualenv, hex, hfind, hz]
  · intro w st env vb v hex
    have hex2 : existsPath (addPathLink st env.path) env.path = true := by
      simp [existsPath, addPathLink, abspath]
    simp [createVirtualenv, hex, hex2]
  · intro w st env vb venv parent hex
    cases venv with
    | none =>
      cases parent with
      | none => simp [createVirtualenv, hex]
      | some p => simp [createVirtualenv, hex]
    | some v =>
      cases parent with
      | none => simp [createVirtualenv, hex]
      | some p => simp [createVirtualenv, hex]

/-- C5, witness: the three branches at concrete inputs. -/
theorem claim_C5_witness :
    (createVirtualenv w2 st0 ⟨"venv", []⟩ "virtualenv" none none).1
      = [Effect.checkCall ["virtualenv", "venv"] none]
    ∧ createVirtualenv w2 st0 ⟨"venv", []⟩ "virtualenv"
        (some "../parent/venv") none
      = ([Effect.symlink "../parent/venv" "venv"], addPathLink st0 "venv",
         none, abspath st0 "venv")
    ∧ createVirtualenv w2
        { cwd := "/home/user", existing := ["/home/user/venv"], links := [] }
        ⟨"venv", []⟩ "virtualenv" none none
      = ([], { cwd := "/home/user", existing := ["/home/user/venv"],
               links := [] }, none, "/home/user/venv") :=
  ⟨claim_C5_theorem.1 w2 st0 "virtualenv" (by decide) (by decide),
   claim_C5_theorem.2.1 w2 st0 ⟨"venv", []⟩ "virtualenv" "../parent/venv"
     (by decide),
   claim_C5_theorem.2.2 w2
     { cwd := "/home/user", existing := ["/home/user/venv"], links := [] }
     ⟨"venv", []⟩ "virtualenv" none none (by decide)⟩

/-- C6: with a `git_hooks` directory present and `.git/hooks` not a
symlink, provisioning removes `.git/hooks` recursively and replaces it by a
symlink to `../git_hooks`; when `.git/hooks` is already a symlink, nothing
is removed and no symlink call is made. -/
theorem claim_C6_theorem :
    (∀ (st : St), existsPath st "git_hooks" = true →
      islinkPath st ".git/hooks" = false →
      existsPath st ".git/hooks" = true →
      setupGitHooks st
        = ([Effect.rmtree ".git/hooks",
            Effect.symlink "../git_hooks" ".git/hooks"],
           addPathLink (removePath st ".git/hooks") ".git/hooks", none))
    ∧ (∀ (st : St), islinkPath st ".git/hooks" = true →
      setupGitHooks st = ([], st, none)) := by
  constructor
  · intro st h1 h2 h3
    simp [setupGitHooks, h1, h2, h3]
  · intro st h
    simp [setupGitHooks, h]

/-- C6, witness: a repository with hooks to install, and one whose
`.git/hooks` is already a symlink. -/
theorem claim_C6_witness :
    setupGitHooks
      { cwd := "/r", existing := ["/r/git_hooks", "/r/.git/hooks"],
        links := [] }
      = ([Effect.rmtree ".git/hooks",
          Effect.symlink "../git_hooks" ".git/hooks"],
         addPathLink
           (removePath
             { cwd := "/r", existing := ["/r/git_hooks", "/r/.git/hooks"],
               links := [] } ".git/hooks") ".git/hooks", none)
    ∧ setupGitHooks
        { cwd := "/r", existing := ["/r/git_hooks", "/r/.git/hooks"],
          links := ["/r/.git/hooks"] }
      = ([], { cwd := "/r", existing := ["/r/git_hooks", "/r/.git/hooks"],
               links := ["/r/.git/hooks"] }, none) :=
  ⟨claim_C6_theorem.1
     { cwd := "/r", existing := ["/r/git_hooks", "/r/.git/hooks"],
       links := [] } (by decide) (by decide) (by decide),
   claim_C6_theorem.2
     { cwd := "/r", existing := ["/r/git_hooks", "/r/.git/hooks"],
       links := ["/r/.git/hooks"] } (by decide)⟩

/-- Every `check_call` spawned by one `run_commands` iteration receives the
environment mapping built from the given venv. -/
theorem runOneCommand_env (w : World) (st : St) (c : Cmd)
    (venv : Option EnvCfg) :
    (((runOneCommand w st c venv).1.filter isCheckCallEff).all
      fun ef => checkCallEnv ef == venvEnvMap w venv) = true := by
  unfold runOneCommand
  cases hn : normalizeCmd c with
  | nil => simp
  | cons c0 rest =>
    by_cases hu : isUrlScript c0 = true
    · by_cases hz : w.exitCode (w.fetch c0 :: rest) = 0
      · simp [hu, hz, isCheckCallEff, checkCallEnv]
      · simp [hu, hz, isCheckCallEff, checkCallEnv]
    · rw [Bool.not_eq_true] at hu
      by_cases hz : w.exitCode (c0 :: rest) = 0
      · simp [hu, hz, isCheckCallEff, checkCallEnv]
      · simp [hu, hz, isCheckCallEff, checkCallEnv]

/-- C10: every command `run_commands` spawns under a venv receives an
environment containing exactly the one variable `PATH`, whose value is the
venv's `bin` directory joined under the current directory, then the path
separator, then the invoking process's `PATH`; no other variable is passed
down. -/
theorem claim_C10_theorem :
    ∀ (w : World) (st : St) (cmds : List Cmd) (e : EnvCfg),
    (((runCommands w st cmds (some e)).1.filter isCheckCallEff).all
      fun ef => checkCallEnv ef ==
        some [("PATH",
          pjoin (pjoin "." e.path) "bin" ++ ":" ++ w.envPATH)]) = true := by
  intro w st cmds e
  induction cmds generalizing st with
  | nil => simp [runCommands]
  | cons c cs ih =>
    have h1 := runOneCommand_env w st c (some e)
    rw [show venvEnvMap w (some e)
      = some [("PATH", pjoin (pjoin "." e.path) "bin" ++ ":" ++ w.envPATH)]
      from rfl] at h1
    simp only [runCommands]
    cases he : (runOneCommand w st c (some e)).2.2 with
    | some err => simpa using h1
    | none =>
      simp only [List.filter_append, List.all_append, Bool.and_eq_true]
      exact ⟨by simpa using h1,
        by simpa using ih (runOneCommand w st c (some e)).2.1⟩

/-- The trace of the `hooks_all` pass. -/
theorem runChecksAll_trace (w : World) (pathO : Option String)
    (cs : List Cmd) :
    (runChecksAll w pathO cs).1
      = cs.map fun c => Effect.callCmd (normalizeCmd c) (hookEnvMap pathO) := by
  induction cs with
  | nil => rfl
  | cons c cs ih => simp [runChecksAll, ih]

/-- The failure flag of the `hooks_all` pass is the negation of "every
spawned command exited 0". -/
theorem runChecksAll_flag (w : World) (pathO : Option String)
    (cs : List Cmd) :
    (runChecksAll w pathO cs).2
      = !((runChecksAll w pathO cs).1.all fun ef => effectExit w ef == 0) := by
  induction cs with
  | nil => rfl
  | cons c cs ih =>
    simp [runChecksAll, effectExit, ih, bne, Bool.not_and]

/-- The trace of one `hooks_modified` entry: the command is spawned once
per changed file with a matching basename, in file order, with the file
appended as final argument. -/
theorem runChecksModOne_trace (w : World) (pat : String) (c : Cmd)
    (files : List String) :
    (runChecksModOne w pat c files).1
      = (files.filter fun f => globMatch pat.data (basename f).data).map
          fun f => Effect.popen (normalizeCmd c ++ [f]) := by
  induction files with
  | nil => rfl
  | cons f fs ih =>
    by_cases hm : globMatch pat.data (basename f).data = true
    · simp [runChecksModOne, hm, ih]
    · rw [Bool.not_eq_true] at hm
      simp [runChecksModOne, hm, ih]

/-- The failure flag of one `hooks_modified` entry. -/
theorem runChecksModOne_flag (w : World) (pat : String) (c : Cmd)
    (files : List String) :
    (runChecksModOne w pat c files).2
      = !((runChecksModOne w pat c files).1.all
          fun ef => effectExit w ef == 0) := by
  induction files with
  | nil => rfl
  | cons f fs ih =>
    by_cases hm : globMatch pat.data (basename f).data = true
    · simp [runChecksModOne, hm, effectExit, ih, bne, Bool.not_and]
    · rw [Bool.not_eq_true] at hm
      simp [runChecksModOne, hm, ih]

/-- The trace of the `hooks_modified` pass. -/
theorem runChecksMods_trace (w : World) (files : List String)
    (mods : List (String × Cmd)) :
    (runChecksMods w files mods).1
      = mods.flatMap fun pc =>
          (files.filter fun f => globMatch pc.1.data (basename f).data).map
            fun f => Effect.popen (normalizeCmd pc.2 ++ [f]) := by
  induction mods with
  | nil => rfl
  | cons pc rest ih =>
    cases pc with
    | mk pat c =>
      simp [runChecksMods, runChecksModOne_trace, ih]

/-- The failure flag of the `hooks_modified` pass. -/
theorem runChecksMods_flag (w : World) (files : List String)
    (mods : List (String × Cmd)) :
    (runChecksMods w files mods).2
      = !((runChecksMods w files mods).1.all
          fun ef => effectExit w ef == 0) := by
  induction mods with
  | nil => rfl
  | cons pc rest ih =>
    cases pc with
    | mk pat c =>
      have e1 := runChecksModOne_flag w pat c files
      simp only [runChecksMods]
      simp [e1, ih, List.all_append, Bool.not_and]

/-- C1: `run_checks` executes every `hooks_all` command and every matching
`(pattern, command, file)` invocation — the full trace appears even when
commands fail, so there is no short-circuit — and returns 0 if and only if
every executed command exited with status 0. -/
theorem claim_C1_theorem :
    ∀ (w : World) (allCmds : List Cmd) (mods : List (String × Cmd))
      (files : List String) (pathO : Option String),
    (runChecks w allCmds mods files pathO).1
      = (allCmds.map fun c =>
          Effect.callCmd (normalizeCmd c) (hookEnvMap pathO))
        ++ mods.flatMap (fun pc =>
            (files.filter fun f => globMatch pc.1.data (basename f).data).map
              fun f => Effect.popen (normalizeCmd pc.2 ++ [f]))
    ∧ ((runChecks w allCmds mods files pathO).2 = 0 ↔
        ((runChecks w allCmds mods files pathO).1.all
          fun ef => effectExit w ef == 0) = true) := by
  intro w allCmds mods files pathO
  constructor
  · simp only [runChecks]
    rw [runChecksAll_trace, runChecksMods_trace]
  · simp only [runChecks]
    rw [runChecksAll_flag, runChecksMods_flag, List.all_append]
    cases ha : (runChecksAll w pathO allCmds).1.all
        fun ef => effectExit w ef == 0 <;>
      cases hb : (runChecksMods w files mods).1.all
          fun ef => effectExit w ef == 0 <;> simp

/-- C9: per-file hook dispatch — the spawned processes of `run_checks` are
exactly one invocation per `(pattern, command)` pair and changed file whose
basename matches the glob pattern, with the filename appended as the final
argument; `*.py` matches `foo.py` but not `foo.txt`, `*` matches every
file, and a string command is word-split before dispatch, so
`"pylint --rcfile=.pylintrc"` against `x.py` spawns exactly
`['pylint', '--rcfile=.pylintrc', 'x.py']`. -/
theorem claim_C9_theorem :
    (∀ (w : World) (mods : List (String × Cmd)) (files : List String)
      (pathO : Option String),
      (runChecks w [] mods files pathO).1
        = mods.flatMap fun pc =>
            (files.filter fun f => globMatch pc.1.data (basename f).data).map
              fun f => Effect.popen (normalizeCmd pc.2 ++ [f]))
    ∧ globMatch "*.py".data (basename "foo.py").data = true
    ∧ globMatch "*.py".data (basename "foo.txt").data = false
    ∧ (∀ f : String, globMatch "*".data (basename f).data = true)
    ∧ normalizeCmd (Cmd.str "pylint --rcfile=.pylintrc") ++ ["x.py"]
        = ["pylint", "--rcfile=.pylintrc", "x.py"] := by
  refine ⟨?_, by decide, by decide, ?_, by decide⟩
  · intro w mods files pathO
    simp only [runChecks]
    rw [runChecksMods_trace]
    simp [runChecksAll]
  · intro f
    have hstar : ∀ s : List Char, (s.tails.any fun t => t.isEmpty) = true := by
      intro s
      induction s with
      | nil => rfl
      | cons c cs ih => simp [List.tails, ih]
    show globMatch ['*'] (basename f).data = true
    simp [globMatch, hstar]

/-- C2: when the computed destination already exists, the clone step issues
no command and leaves the state untouched, and `unbox` proceeds by changing
into that existing directory; running `unbox` twice on the same fresh
destination issues the clone command exactly once (only on the first
run). -/
theorem claim_C2_theorem :
    (∀ (w : World) (st : St) (repo d : String),
      existsPath st d = true → clonePhase w st repo d = ([], st, none))
    ∧ (∀ (w : World) (n : Nat) (st : St) (repo d : String) (noDeps : Bool)
        (vb : String) (venv : Option String),
      d ≠ "" → existsPath st d = true →
      (unbox w (Nat.succ n) st repo (some d) noDeps vb venv).1.head?
        = some (Effect.chdir (abspath st d)))
    ∧ ((unbox w2 1 st0 "http://example.com/myrepo.git" none false
          "virtualenv" none).1.countP isCloneEff = 1
       ∧ (unbox w2 1 st0 "http://example.com/myrepo.git" none false
            "virtualenv" none).2.2 = none
       ∧ (unbox w2 1
            (unbox w2 1 st0 "http://example.com/myrepo.git" none false
              "virtualenv" none).2.1
            "http://example.com/myrepo.git" none false "virtualenv"
            none).1.countP isCloneEff = 0) := by
  refine ⟨?_, ?_, by decide, by decide, by decide⟩
  · intro w st repo d hex
    simp [clonePhase, hex]
  · intro w n st repo d noDeps vb venv hdne hex
    have hres : resolveDest st repo (some d) = some d := by
      simp [resolveDest, hdne]
    have hclone : clonePhase w st repo d = ([], st, none) := by
      simp [clonePhase, hex]
    simp only [unbox, hres, hclone]
    have hsp : (setupPhase w st d vb venv).1
        = Effect.chdir (abspath st d) ::
          ((setupBody w { st with cwd := abspath st d }
              (w.confs (abspath st d)) vb venv).1
            ++ [Effect.chdir st.cwd]) := rfl
    split
    · simp [hsp]
    · split <;> simp [hsp]

/-- C2, witness: a destination that already exists is entered without any
clone. -/
theorem claim_C2_witness :
    clonePhase w2
      { cwd := "/home/user", existing := ["/home/user/myrepo"], links := [] }
      "r" "myrepo"
      = ([], { cwd := "/home/user", existing := ["/home/user/myrepo"],
               links := [] }, none)
    ∧ (unbox w2 1
        { cwd := "/home/user", existing := ["/home/user/myrepo"],
          links := [] }
        "r" (some "myrepo") false "virtualenv" none).1.head?
      = some (Effect.chdir "/home/user/myrepo") :=
  ⟨claim_C2_theorem.1 w2
     { cwd := "/home/user", existing := ["/home/user/myrepo"], links := [] }
     "r" "myrepo" (by decide),
   claim_C2_theorem.2.1 w2 0
     { cwd := "/home/user", existing := ["/home/user/myrepo"], links := [] }
     "r" "myrepo" false "virtualenv" none (by decide) (by decide)⟩

/-- C7: after a successful clone and setup, with `noDeps` set `unbox` goes
straight from setup to `post_setup` and provisions no dependency at all;
with `noDeps` unset, the full recursive provisioning of every declared
dependency (`runDepList` of `unbox` itself) is placed between the setup
trace and the `post_setup` trace, so every dependency is provisioned before
this repository's `post_setup` runs, and a dependency failure stops `unbox`
before `post_setup`. -/
theorem claim_C7_theorem (w : World) (n : Nat) (st : St) (repo : String)
    (dest : Option String) (vb : String) (venv venv2 : Option String)
    (d : String) (t0 t1 : List Effect) (st0a st1a : St) (conf : Conf)
    (hd : resolveDest st repo dest = some d)
    (hc : clonePhase w st repo d = (t0, st0a, none))
    (hs : setupPhase w st0a d vb venv = (t1, st1a, conf, venv2, none)) :
    (unbox w (Nat.succ n) st repo dest true vb venv
      = (t0 ++ t1 ++ (postPhase w st1a d conf).1,
         (postPhase w st1a d conf).2.1, (postPhase w st1a d conf).2.2))
    ∧ (∀ (dr : List Effect × St × Option Err),
        dr = runDepList
            (fun dep s2 => unbox w n s2 dep none false vb venv2)
            conf.dependencies st1a →
        (dr.2.2 = none →
          unbox w (Nat.succ n) st repo dest false vb venv
            = (t0 ++ t1 ++ dr.1 ++ (postPhase w dr.2.1 d conf).1,
               (postPhase w dr.2.1 d conf).2.1,
               (postPhase w dr.2.1 d conf).2.2))
        ∧ (∀ e, dr.2.2 = some e →
          unbox w (Nat.succ n) st repo dest false vb venv
            = (t0 ++ t1 ++ dr.1, dr.2.1, some e))) := by
  constructor
  · simp [unbox, hd, hc, hs]
  · intro dr hdr
    constructor
    · intro hnone
      have h2 : runDepList
          (fun dep s2 => unbox w n s2 dep none false vb venv2)
          conf.dependencies st1a = (dr.1, dr.2.1, none) := by
        rw [← hnone]
        exact hdr.symm
      simp [unbox, hd, hc, hs, h2]
    · intro e hsome
      have h2 : runDepList
          (fun dep s2 => unbox w n s2 dep none false vb venv2)
          conf.dependencies st1a = (dr.1, dr.2.1, some e) := by
        rw [← hsome]
        exact hdr.symm
      simp [unbox, hd, hc, hs, h2]

/-- The world of the C7 witness: benign commands, with the cloned
repository declaring one dependency. -/
def w7 : World :=
  { exitCode := fun _ => 0, fetch := fun _ => "/tmp/script",
    findExec := fun _ => true, envPATH := "/usr/bin",
    pythonExe := "/usr/bin/python3",
    confs := fun dir =>
      if dir = "/home/user/myrepo" then
        { dependencies := ["http://example.com/dep"], preSetup := [],
          postSetup := [], env := none, parent := none }
      else defaultConf }

/-- C7, witness: one repository with one dependency, in both the `noDeps`
and the recursive mode. -/
theorem claim_C7_witness :
    (unbox w7 2 st0 "http://example.com/myrepo.git" none true "virtualenv"
        none
      = ((clonePhase w7 st0 "http://example.com/myrepo.git" "myrepo").1
          ++ (setupPhase w7
              (clonePhase w7 st0 "http://example.com/myrepo.git"
                "myrepo").2.1 "myrepo" "virtualenv" none).1
          ++ (postPhase w7
              (setupPhase w7
                (clonePhase w7 st0 "http://example.com/myrepo.git"
                  "myrepo").2.1 "myrepo" "virtualenv" none).2.1 "myrepo"
              (setupPhase w7
                (clonePhase w7 st0 "http://example.com/myrepo.git"
                  "myrepo").2.1 "myrepo" "virtualenv" none).2.2.1).1,
         (postPhase w7
             (setupPhase w7
               (clonePhase w7 st0 "http://example.com/myrepo.git"
                 "myrepo").2.1 "myrepo" "virtualenv" none).2.1 "myrepo"
             (setupPhase w7
               (clonePhase w7 st0 "http://example.com/myrepo.git"
                 "myrepo").2.1 "myrepo" "virtualenv" none).2.2.1).2.1,
         (postPhase w7
             (setupPhase w7
               (clonePhase w7 st0 "http://example.com/myrepo.git"
                 "myrepo").2.1 "myrepo" "virtualenv" none).2.1 "myrepo"
             (setupPhase w7
               (clonePhase w7 st0 "http://example.com/myrepo.git"
                 "myrepo").2.1 "myrepo" "virtualenv" none).2.2.1).2.2))
    ∧ (unbox w7 2 st0 "http://example.com/myrepo.git" none true "virtualenv"
        none).1.countP isCloneEff = 1
    ∧ (unbox w7 2 st0 "http://example.com/myrepo.git" none false
        "virtualenv" none).1.countP isCloneEff = 2
    ∧ (unbox w7 2 st0 "http://example.com/myrepo.git" none false
        "virtualenv" none).2.2 = none := by
  refine ⟨?_, by decide, by decide, by decide⟩
  exact (claim_C7_theorem w7 1 st0 "http://example.com/myrepo.git" none
    "virtualenv" none
    (setupPhase w7
      (clonePhase w7 st0 "http://example.com/myrepo.git" "myrepo").2.1
      "myrepo" "virtualenv" none).2.2.2.1
    "myrepo"
    (clonePhase w7 st0 "http://example.com/myrepo.git" "myrepo").1
    (setupPhase w7
      (clonePhase w7 st0 "http://example.com/myrepo.git" "myrepo").2.1
      "myrepo" "virtualenv" none).1
    (clonePhase w7 st0 "http://example.com/myrepo.git" "myrepo").2.1
    (setupPhase w7
      (clonePhase w7 st0 "http://example.com/myrepo.git" "myrepo").2.1
      "myrepo" "virtualenv" none).2.1
    (setupPhase w7
      (clonePhase w7 st0 "http://example.com/myrepo.git" "myrepo").2.1
      "myrepo" "virtualenv" none).2.2.1
    (by decide) (by decide) (by decide)).1

/-- `['git', 'pull', '--ff-only']`. -/
def pullCmd : List String := ["git", "pull", "--ff-only"]

/-- `['git', 'submodule', 'update', '--init', '--recursive']`. -/
def subCmd : List String := ["git", "submodule", "update", "--init",
  "--recursive"]

/-- A world whose pull and submodule-update exit codes are the parameters
`ep` and `es`, every other command exits 0, and the cloned repository has
one `post_setup` command. -/
def w8 (ep es : Int) : World :=
  { exitCode := fun c =>
      if c = pullCmd then ep else if c = subCmd then es else 0,
    fetch := fun _ => "/tmp/script", findExec := fun _ => true,
    envPATH := "/usr/bin", pythonExe := "/usr/bin/python3",
    confs := fun dir =>
      if dir = "/home/user/myrepo" then
        { dependencies := [], preSetup := [],
          postSetup := [Cmd.tokens ["make", "check"]], env := none,
          parent := none }
      else defaultConf }

/-- A world in which the one `pre_setup` command of the cloned repository
fails. -/
def wPre : World :=
  { exitCode := fun c => if c = ["bad"] then 1 else 0,
    fetch := fun _ => "/tmp/script", findExec := fun _ => true,
    envPATH := "/usr/bin", pythonExe := "/usr/bin/python3",
    confs := fun dir =>
      if dir = "/home/user/myrepo" then
        { dependencies := [], preSetup := [Cmd.tokens ["bad"]],
          postSetup := [], env := none, parent := none }
      else defaultConf }

/-- A world in which the one `post_setup` command of the cloned repository
fails. -/
def wPost : World :=
  { exitCode := fun c => if c = ["bad"] then 1 else 0,
    fetch := fun _ => "/tmp/script", findExec := fun _ => true,
    envPATH := "/usr/bin", pythonExe := "/usr/bin/python3",
    confs := fun dir =>
      if dir = "/home/user/myrepo" then
        { dependencies := [], preSetup := [],
          postSetup := [Cmd.tokens ["bad"]], env := none, parent := none }
      else defaultConf }

set_option maxHeartbeats 4000000 in
/-- C8: `update_repo` runs the pull and the recursive submodule update
through `subprocess.call` and discards their exit codes, so it never raises
— for arbitrary pull and submodule exit codes, `unbox` still completes the
whole provisioning, including `post_setup`, with no error.  By contrast a
non-zero clone exit aborts `unbox` immediately, and a setup
(`pre_setup`/hooks/env) error or a `post_setup` error propagates out of
`unbox` as the overall result. -/
theorem claim_C8_theorem :
    (∀ st : St, updateRepo st
      = ([Effect.callCmd pullCmd none, Effect.callCmd subCmd none], st,
         none))
    ∧ (∀ ep es : Int,
        unbox (w8 ep es) 1 st0 "http://example.com/myrepo.git" none false
          "virtualenv" none
        = ([Effect.checkCall
              ["git", "clone", "http://example.com/myrepo.git", "myrepo"]
              none,
            Effect.chdir "/home/user/myrepo",
            Effect.callCmd pullCmd none,
            Effect.callCmd subCmd none,
            Effect.chdir "/home/user",
            Effect.chdir "/home/user/myrepo",
            Effect.checkCall ["make", "check"] none,
            Effect.chdir "/home/user"],
           { cwd := "/home/user", existing := ["/home/user/myrepo"],
             links := [] },
           none))
    ∧ (∀ (w : World) (n : Nat) (st : St) (repo d : String)
        (dest : Option String) (noDeps : Bool) (vb : String)
        (venv : Option String),
        resolveDest st repo dest = some d →
        existsPath st d = false →
        w.exitCode ["git", "clone", repo, d] ≠ 0 →
        unbox w (Nat.succ n) st repo dest noDeps vb venv
          = ([Effect.checkCall ["git", "clone", repo, d] none], st,
             some (Err.commandFailed ["git", "clone", repo, d])))
    ∧ (∀ (w : World) (n : Nat) (st : St) (repo d : String)
        (dest : Option String) (noDeps : Bool) (vb : String)
        (venv venv2 : Option String) (t0 t1 : List Effect)
        (st0a st1a : St) (conf : Conf) (e : Err),
        resolveDest st repo dest = some d →
        clonePhase w st repo d = (t0, st0a, none) →
        setupPhase w st0a d vb venv = (t1, st1a, conf, venv2, some e) →
        unbox w (Nat.succ n) st repo dest noDeps vb venv
          = (t0 ++ t1, st1a, some e))
    ∧ (∀ (w : World) (n : Nat) (st : St) (repo d : String)
        (dest : Option String) (vb : String) (venv venv2 : Option String)
        (t0 t1 t2 : List Effect) (st0a st1a st2a : St) (conf : Conf),
        resolveDest st repo dest = some d →
        clonePhase w st repo d = (t0, st0a, none) →
        setupPhase w st0a d vb venv = (t1, st1a, conf, venv2, none) →
        runDepList (fun dep s2 => unbox w n s2 dep none false vb venv2)
            conf.dependencies st1a = (t2, st2a, none) →
        unbox w (Nat.succ n) st repo dest false vb venv
          = (t0 ++ t1 ++ t2 ++ (postPhase w st2a d conf).1,
             (postPhase w st2a d conf).2.1,
             (postPhase w st2a d conf).2.2)) := by
  refine ⟨fun st => rfl, fun ep es => rfl, ?_, ?_, ?_⟩
  · intro w n st repo d dest noDeps vb venv hd hex hcl
    have hcp : clonePhase w st repo d
        = ([Effect.checkCall ["git", "clone", repo, d] none], st,
           some (Err.commandFailed ["git", "clone", repo, d])) := by
      simp [clonePhase, hex, hcl]
    simp [unbox, hd, hcp]
  · intro w n st repo d dest noDeps vb venv venv2 t0 t1 st0a st1a conf e
      hd hc hs
    simp [unbox, hd, hc, hs]
  · intro w n st repo d dest vb venv venv2 t0 t1 t2 st0a st1a st2a conf
      hd hc hs hdeps
    simp [unbox, hd, hc, hs, hdeps]

/-- C8, witness: a failing clone aborts; a failing `pre_setup` command
aborts after the setup trace; a repository with empty dependencies and a
failing `post_setup` command ends with that error after the post trace. -/
theorem claim_C8_witness :
    unbox wFail 1 st0 "r" (some "d") false "virtualenv" none
      = ([Effect.checkCall ["git", "clone", "r", "d"] none], st0,
         some (Err.commandFailed ["git", "clone", "r", "d"]))
    ∧ unbox wPre 1 st0 "http://example.com/myrepo.git" none false
        "virtualenv" none
      = ((clonePhase wPre st0 "http://example.com/myrepo.git" "myrepo").1
          ++ (setupPhase wPre
              (clonePhase wPre st0 "http://example.com/myrepo.git"
                "myrepo").2.1 "myrepo" "virtualenv" none).1,
         (setupPhase wPre
             (clonePhase wPre st0 "http://example.com/myrepo.git"
               "myrepo").2.1 "myrepo" "virtualenv" none).2.1,
         some (Err.commandFailed ["bad"]))
    ∧ unbox wPost 1 st0 "http://example.com/myrepo.git" none false
        "virtualenv" none
      = ((clonePhase wPost st0 "http://example.com/myrepo.git" "myrepo").1
          ++ (setupPhase wPost
              (clonePhase wPost st0 "http://example.com/myrepo.git"
                "myrepo").2.1 "myrepo" "virtualenv" none).1
          ++ []
          ++ (postPhase wPost
              (setupPhase wPost
                (clonePhase wPost st0 "http://example.com/myrepo.git"
                  "myrepo").2.1 "myrepo" "virtualenv" none).2.1 "myrepo"
              (setupPhase wPost
                (clonePhase wPost st0 "http://example.com/myrepo.git"
                  "myrepo").2.1 "myrepo" "virtualenv" none).2.2.1).1,
         (postPhase wPost
             (setupPhase wPost
               (clonePhase wPost st0 "http://example.com/myrepo.git"
                 "myrepo").2.1 "myrepo" "virtualenv" none).2.1 "myrepo"
             (setupPhase wPost
               (clonePhase wPost st0 "http://example.com/myrepo.git"
                 "myrepo").2.1 "myrepo" "virtualenv" none).2.2.1).2.1,
         (postPhase wPost
             (setupPhase wPost
               (clonePhase wPost st0 "http://example.com/myrepo.git"
                 "myrepo").2.1 "myrepo" "virtualenv" none).2.1 "myrepo"
             (setupPhase wPost
               (clonePhase wPost st0 "http://example.com/myrepo.git"
                 "myrepo").2.1 "myrepo" "virtualenv" none).2.2.1).2.2) :=
  ⟨claim_C8_theorem.2.2.1 wFail 0 st0 "r" "d" (some "d") false "virtualenv"
     none (by decide) (by decide) (by decide),
   claim_C8_theorem.2.2.2.1 wPre 0 st0 "http://example.com/myrepo.git"
     "myrepo" none false "virtualenv" none
     (setupPhase wPre
       (clonePhase wPre st0 "http://example.com/myrepo.git" "myrepo").2.1
       "myrepo" "virtualenv" none).2.2.2.1
     (clonePhase wPre st0 "http://example.com/myrepo.git" "myrepo").1
     (setupPhase wPre
       (clonePhase wPre st0 "http://example.com/myrepo.git" "myrepo").2.1
       "myrepo" "virtualenv" none).1
     (clonePhase wPre st0 "http://example.com/myrepo.git" "myrepo").2.1
     (setupPhase wPre
       (clonePhase wPre st0 "http://example.com/myrepo.git" "myrepo").2.1
       "myrepo" "virtualenv" none).2.1
     (setupPhase wPre
       (clonePhase wPre st0 "http://example.com/myrepo.git" "myrepo").2.1
       "myrepo" "virtualenv" none).2.2.1
     (Err.commandFailed ["bad"])
     (by decide) (by decide) (by decide),
   claim_C8_theorem.2.2.2.2 wPost 0 st0 "http://example.com/myrepo.git"
     "myrepo" none "virtualenv" none
     (setupPhase wPost
       (clonePhase wPost st0 "http://example.com/myrepo.git" "myrepo").2.1
       "myrepo" "virtualenv" none).2.2.2.1
     (clonePhase wPost st0 "http://example.com/myrepo.git" "myrepo").1
     (setupPhase wPost
       (clonePhase wPost st0 "http://example.com/myrepo.git" "myrepo").2.1
       "myrepo" "virtualenv" none).1
     []
     (clonePhase wPost st0 "http://example.com/myrepo.git" "myrepo").2.1
     (setupPhase wPost
       (clonePhase wPost st0 "http://example.com/myrepo.git" "myrepo").2.1
       "myrepo" "virtualenv" none).2.1
     (setupPhase wPost
       (clonePhase wPost st0 "http://example.com/myrepo.git" "myrepo").2.1
       "myrepo" "virtualenv" none).2.1
     (setupPhase wPost
       (clonePhase wPost st0 "http://example.com/myrepo.git" "myrepo").2.1
       "myrepo" "virtualenv" none).2.2.1
     (by decide) (by decide) (by decide) (by decide)⟩

end Devbox
